import Mathlib

/-!
Verification of the repository scoring and analytics engine of gitpick.

The embedded code comes from `src/utils/analytics.ts` (metric functions and
the two latency aggregators), `src/config.ts` (threshold and weight
constants) and the assembling tail of `analyzeRepo` in `src/index.ts`.
JavaScript numbers are modelled as exact rationals; timestamps are
milliseconds since the epoch, as produced by `Date.getTime()`.
-/

namespace Gitpick

/-- JavaScript `Math.round`: rounds to the nearest integer, halves toward
positive infinity, i.e. `⌊x + 1/2⌋`. -/
def jsRound (x : ℚ) : ℤ :=
  Int.floor (x + 1 / 2)

/-- `ACTIVITY_THRESHOLDS` record shape from `src/config.ts`. -/
structure ActivityThresholds where
  VERY_ACTIVE : ℤ
  ACTIVE : ℤ
  MODERATE : ℤ
  INACTIVE : ℤ

/-- `ACTIVITY_THRESHOLDS` from `src/config.ts`: 7 / 30 / 90 / 180 days. -/
def ACTIVITY_THRESHOLDS : ActivityThresholds :=
  ⟨7, 30, 90, 180⟩

/-- `SCORE_WEIGHTS` record shape from `src/config.ts`. -/
structure ScoreWeights where
  STARS : ℚ
  ACTIVITY : ℚ
  ISSUES : ℚ
  CONTRIBUTING : ℚ
  GOOD_FIRST_ISSUES : ℚ

/-- `SCORE_WEIGHTS` from `src/config.ts`. -/
def SCORE_WEIGHTS : ScoreWeights :=
  ⟨0.2, 0.3, 0.15, 0.15, 0.2⟩

/-- `GoodFirstIssue` from `src/types/index.ts`. -/
structure GoodFirstIssue where
  title : String
  html_url : String
  number : ℕ
  created_at : String
  comments : ℕ

/-- `PRStats` from `src/types/index.ts`. -/
structure PRStats where
  avgMergeTime : Option ℚ
  mergedCount : ℕ
deriving DecidableEq

/-- `IssueResponseStats` from `src/types/index.ts`. -/
structure IssueResponseStats where
  avgResponseTime : Option ℚ
  responseRate : ℤ
deriving DecidableEq

/-- `RepoAnalysis` from `src/types/index.ts`.  The optional fields
(`activityScore?`, `prStats?`, `issueResponseStats?`) become `Option`s. -/
structure RepoAnalysis where
  name : String
  description : String
  stars : ℕ
  language : Option String
  lastActivity : Option ℤ
  active : Bool
  url : String
  openIssues : ℕ
  forks : ℕ
  hasContributing : Bool
  hasCodeOfConduct : Bool
  license : Option String
  contributorsCount : Option String
  goodFirstIssues : List GoodFirstIssue
  topics : List String
  activityScore : Option ℚ
  prStats : Option PRStats
  issueResponseStats : Option IssueResponseStats

/-- `calculateActivityScore` from `src/utils/analytics.ts`. -/
def calculateActivityScore (lastActivityDays : Option ℤ) : ℚ :=
  match lastActivityDays with
  | none => 0
  | some d =>
    if d < ACTIVITY_THRESHOLDS.VERY_ACTIVE then 10
    else if d < ACTIVITY_THRESHOLDS.ACTIVE then 8
    else if d < ACTIVITY_THRESHOLDS.MODERATE then 5
    else if d < ACTIVITY_THRESHOLDS.INACTIVE then 3
    else 1

/-- `calculateStarsScore` from `src/utils/analytics.ts`. -/
def calculateStarsScore (stars : ℕ) : ℚ :=
  if stars < 10 then 1
  else if stars < 50 then 3
  else if stars < 100 then 4
  else if stars < 500 then 6
  else if stars < 1000 then 7
  else if stars < 5000 then 8
  else if stars < 10000 then 9
  else 10

/-- `calculateIssuesScore` from `src/utils/analytics.ts`; the second
argument is the good-first-issue count (`goodFirstIssues.length` at the
call site). -/
def calculateIssuesScore (openIssues : ℕ) (goodFirstIssues : ℕ) : ℚ :=
  let goodFirstScore : ℚ := min ((goodFirstIssues : ℚ) * 2) 5
  let openIssuesScore : ℚ :=
    if openIssues < 10 then 5
    else if openIssues < 50 then 4
    else if openIssues < 100 then 3
    else if openIssues < 500 then 2
    else 1
  min (goodFirstScore + openIssuesScore) 10

/-- `calculateOverallScore` from `src/utils/analytics.ts`. -/
def calculateOverallScore (repoData : RepoAnalysis) : ℚ :=
  let activityScore := calculateActivityScore repoData.lastActivity
  let starsScore := calculateStarsScore repoData.stars
  let issuesScore := calculateIssuesScore repoData.openIssues repoData.goodFirstIssues.length
  let contributingScore : ℚ := if repoData.hasContributing then 10 else 0
  let goodFirstIssuesScore : ℚ := min ((repoData.goodFirstIssues.length : ℚ) * 2) 10
  let overall :=
    activityScore * SCORE_WEIGHTS.ACTIVITY +
    starsScore * SCORE_WEIGHTS.STARS +
    issuesScore * SCORE_WEIGHTS.ISSUES +
    contributingScore * SCORE_WEIGHTS.CONTRIBUTING +
    goodFirstIssuesScore * SCORE_WEIGHTS.GOOD_FIRST_ISSUES
  (jsRound (overall * 10) : ℚ) / 10

/-- A closed pull request as consumed by `getPRStats`: creation timestamp
and optional merge timestamp (`merged_at` is null for unmerged PRs), both
in epoch milliseconds. -/
structure ClosedPR where
  created_at : ℚ
  merged_at : Option ℚ
deriving DecidableEq

/-- Per-PR merge duration in fractional days:
`(merged.getTime() - created.getTime()) / (1000*60*60*24)`.  The `getD 0`
is never exercised: callers only apply this to PRs that passed the
`merged_at` filter. -/
def prMergeDays (pr : ClosedPR) : ℚ :=
  (pr.merged_at.getD 0 - pr.created_at) / (1000 * 60 * 60 * 24)

/-- The merged-PR sublist: `closedPRs.filter(pr => pr.merged_at)`. -/
def mergedPRsOf (closedPRs : List ClosedPR) : List ClosedPR :=
  closedPRs.filter fun pr => pr.merged_at.isSome

/-- `mergeTimes.reduce((a, b) => a + b, 0) / mergeTimes.length`. -/
def avgOf (l : List ℚ) : ℚ :=
  List.foldl (fun a b => a + b) 0 l / (l.length : ℚ)

/-- The pure core of `getPRStats` from `src/utils/analytics.ts`: the
computation applied to the fetched page of closed PRs. -/
def getPRStats (closedPRs : List ClosedPR) : PRStats :=
  let mergedPRs := mergedPRsOf closedPRs
  if mergedPRs.length = 0 then
    ⟨none, 0⟩
  else
    let mergeTimes := mergedPRs.map prMergeDays
    let avgMergeTime := avgOf mergeTimes
    ⟨some ((jsRound (avgMergeTime * 10) : ℚ) / 10), mergedPRs.length⟩

/-- A recently updated issue as consumed by `getIssueResponseStats`:
creation timestamp (epoch ms), comment count, and — when the one-element
first-comment page was fetched and non-empty — the first comment's
creation timestamp. -/
structure RecentIssue where
  created_at : ℚ
  comments : ℕ
  firstCommentAt : Option ℚ
deriving DecidableEq

/-- The `responseTimes` array built by the loop in
`getIssueResponseStats`: for each issue with `comments > 0` whose
first-comment fetch returned a comment, the first response time in hours
`(firstResponse.getTime() - created.getTime()) / (1000*60*60)`. -/
def collectResponseTimes (recentIssues : List RecentIssue) : List ℚ :=
  recentIssues.filterMap fun issue =>
    if issue.comments > 0 then
      issue.firstCommentAt.map fun t => (t - issue.created_at) / (1000 * 60 * 60)
    else none

/-- The pure core of `getIssueResponseStats` from
`src/utils/analytics.ts`: the computation applied to the fetched page of
recent issues. -/
def getIssueResponseStats (recentIssues : List RecentIssue) : IssueResponseStats :=
  let responseTimes := collectResponseTimes recentIssues
  if responseTimes.length = 0 then
    ⟨none, 0⟩
  else
    let avgResponseTime := avgOf responseTimes
    ⟨some ((jsRound (avgResponseTime * 10) : ℚ) / 10),
     jsRound (((responseTimes.length : ℚ) / (recentIssues.length : ℚ)) * 100)⟩

/-- The raw repository record fields the assembler reads
(`repo` in `analyzeRepo`, `src/index.ts`). -/
structure RawRepo where
  full_name : String
  description : Option String
  stargazers_count : ℕ
  language : Option String
  html_url : String
  open_issues_count : ℕ
  forks_count : ℕ
  license : Option String
  topics : List String

/-- `getLicense` from `src/utils/analytics.ts`:
`repo.license ? repo.license.name : null`. -/
def getLicense (repo : RawRepo) : Option String :=
  repo.license

/-- The `active` expression of the assembler
(`src/index.ts`): `lastCommitDays !== null && lastCommitDays < 30`. -/
def isActive (lastCommitDays : Option ℤ) : Bool :=
  match lastCommitDays with
  | none => false
  | some d => d < 30

/-- Builds the `RepoAnalysis` record literal of `analyzeRepo`
(`src/index.ts`), parameterized by the derived fields that are assigned
after construction. -/
def mkAnalysis (repo : RawRepo) (lastCommitDays : Option ℤ)
    (issues : List GoodFirstIssue) (hasContributing hasCodeOfConductFile : Bool)
    (contributorsCount : Option String) (activityScore : Option ℚ)
    (prStats : Option PRStats) (issueResponseStats : Option IssueResponseStats) :
    RepoAnalysis :=
  ⟨repo.full_name,
   repo.description.getD "No description",
   repo.stargazers_count,
   repo.language,
   lastCommitDays,
   isActive lastCommitDays,
   repo.html_url,
   repo.open_issues_count,
   repo.forks_count,
   hasContributing,
   hasCodeOfConductFile,
   getLicense repo,
   contributorsCount,
   issues,
   repo.topics,
   activityScore,
   prStats,
   issueResponseStats⟩

/-- The assembling tail of `analyzeRepo` (`src/index.ts`): builds the
analysis record, attaches the advanced stats when requested, then sets
`activityScore = calculateOverallScore(analysis)`. -/
def analyzeRepo (repo : RawRepo) (lastCommitDays : Option ℤ)
    (issues : List GoodFirstIssue) (hasContributing hasCodeOfConductFile : Bool)
    (contributorsCount : Option String)
    (advancedStats : Option (PRStats × IssueResponseStats)) : RepoAnalysis :=
  let prStats := advancedStats.map Prod.fst
  let issueResponseStats := advancedStats.map Prod.snd
  let analysis := mkAnalysis repo lastCommitDays issues hasContributing
    hasCodeOfConductFile contributorsCount none prStats issueResponseStats
  mkAnalysis repo lastCommitDays issues hasContributing
    hasCodeOfConductFile contributorsCount
    (some (calculateOverallScore analysis)) prStats issueResponseStats

/-! ## Helper lemmas -/

lemma calculateActivityScore_bounds (d : Option ℤ) :
    0 ≤ calculateActivityScore d ∧ calculateActivityScore d ≤ 10 := by
  cases d with
  | none => norm_num [calculateActivityScore]
  | some d =>
    simp only [calculateActivityScore]
    split_ifs <;> norm_num

lemma calculateStarsScore_bounds (s : ℕ) :
    1 ≤ calculateStarsScore s ∧ calculateStarsScore s ≤ 10 := by
  simp only [calculateStarsScore]
  split_ifs <;> norm_num

lemma calculateIssuesScore_bounds (o g : ℕ) :
    0 ≤ calculateIssuesScore o g ∧ calculateIssuesScore o g ≤ 10 := by
  simp only [calculateIssuesScore]
  refine ⟨le_min (add_nonneg (le_min (by positivity) (by norm_num)) ?_) (by norm_num),
    min_le_right _ _⟩
  split_ifs <;> norm_num

lemma jsRound_nonneg (x : ℚ) (h : 0 ≤ x) : 0 ≤ jsRound x := by
  simp only [jsRound]
  exact Int.le_floor.mpr (by push_cast; linarith)

lemma jsRound_le (x : ℚ) (n : ℤ) (h : x ≤ n) : jsRound x ≤ n := by
  simp only [jsRound]
  have hlt : (⌊x + 1 / 2⌋ : ℤ) < n + 1 := Int.floor_lt.mpr (by push_cast; linarith)
  omega

/-- Natural-number image of the star-score threshold chain, used to
transfer monotonicity reasoning to linear arithmetic over ℕ. -/
def starsBand (s : ℕ) : ℕ :=
  if s < 10 then 1
  else if s < 50 then 3
  else if s < 100 then 4
  else if s < 500 then 6
  else if s < 1000 then 7
  else if s < 5000 then 8
  else if s < 10000 then 9
  else 10

lemma calculateStarsScore_eq_band (s : ℕ) :
    calculateStarsScore s = (starsBand s : ℚ) := by
  simp only [calculateStarsScore, starsBand]
  split_ifs <;> norm_num

set_option maxHeartbeats 1000000 in
lemma starsBand_monotone (s1 s2 : ℕ) (h : s1 ≤ s2) : starsBand s1 ≤ starsBand s2 := by
  simp only [starsBand]
  split_ifs <;> omega

lemma starsBand_cases (s : ℕ) :
    starsBand s = 1 ∨ starsBand s = 3 ∨ starsBand s = 4 ∨ starsBand s = 6 ∨
    starsBand s = 7 ∨ starsBand s = 8 ∨ starsBand s = 9 ∨ starsBand s = 10 := by
  simp only [starsBand]
  split_ifs <;> omega

/-! ## Claim theorems -/

/-- C6: the activity recency score is 0 when days-since-last-commit is
unknown, 10 below 7 days, 8 on [7, 30), 5 on [30, 90), 3 on [90, 180),
and 1 from 180 days on. -/
theorem activityScore_buckets (d : ℤ) :
    calculateActivityScore none = 0
    ∧ (d < 7 → calculateActivityScore (some d) = 10)
    ∧ (7 ≤ d ∧ d < 30 → calculateActivityScore (some d) = 8)
    ∧ (30 ≤ d ∧ d < 90 → calculateActivityScore (some d) = 5)
    ∧ (90 ≤ d ∧ d < 180 → calculateActivityScore (some d) = 3)
    ∧ (180 ≤ d → calculateActivityScore (some d) = 1) := by
  refine ⟨rfl, ?_, ?_, ?_, ?_, ?_⟩ <;>
    · intro h
      simp only [calculateActivityScore, ACTIVITY_THRESHOLDS]
      split_ifs <;> first | rfl | (exfalso; omega)

/-- C6 witness: one concrete input in each bucket. -/
theorem activityScore_buckets_witness :
    calculateActivityScore (some 5) = 10 ∧ calculateActivityScore (some 7) = 8
    ∧ calculateActivityScore (some 30) = 5 ∧ calculateActivityScore (some 90) = 3
    ∧ calculateActivityScore (some 180) = 1 :=
  ⟨(activityScore_buckets 5).2.1 (by decide),
   (activityScore_buckets 7).2.2.1 (by decide),
   (activityScore_buckets 30).2.2.2.1 (by decide),
   (activityScore_buckets 90).2.2.2.2.1 (by decide),
   (activityScore_buckets 180).2.2.2.2.2 (by decide)⟩

/-- C7: the popularity score follows the ascending star thresholds
10 / 50 / 100 / 500 / 1000 / 5000 / 10000 with values
1 / 3 / 4 / 6 / 7 / 8 / 9 / 10. -/
theorem starsScore_thresholds (s : ℕ) :
    (s < 10 → calculateStarsScore s = 1)
    ∧ (10 ≤ s ∧ s < 50 → calculateStarsScore s = 3)
    ∧ (50 ≤ s ∧ s < 100 → calculateStarsScore s = 4)
    ∧ (100 ≤ s ∧ s < 500 → calculateStarsScore s = 6)
    ∧ (500 ≤ s ∧ s < 1000 → calculateStarsScore s = 7)
    ∧ (1000 ≤ s ∧ s < 5000 → calculateStarsScore s = 8)
    ∧ (5000 ≤ s ∧ s < 10000 → calculateStarsScore s = 9)
    ∧ (10000 ≤ s → calculateStarsScore s = 10) := by
  refine ⟨?_, ?_, ?_, ?_, ?_, ?_, ?_, ?_⟩ <;>
    · intro h
      simp only [calculateStarsScore]
      split_ifs <;> first | rfl | (exfalso; omega)

/-- C7 witness: one concrete star count in each threshold band. -/
theorem starsScore_thresholds_witness :
    calculateStarsScore 0 = 1 ∧ calculateStarsScore 10 = 3
    ∧ calculateStarsScore 50 = 4 ∧ calculateStarsScore 100 = 6
    ∧ calculateStarsScore 500 = 7 ∧ calculateStarsScore 1000 = 8
    ∧ calculateStarsScore 5000 = 9 ∧ calculateStarsScore 10000 = 10 :=
  ⟨(starsScore_thresholds 0).1 (by decide),
   (starsScore_thresholds 10).2.1 (by decide),
   (starsScore_thresholds 50).2.2.1 (by decide),
   (starsScore_thresholds 100).2.2.2.1 (by decide),
   (starsScore_thresholds 500).2.2.2.2.1 (by decide),
   (starsScore_thresholds 1000).2.2.2.2.2.1 (by decide),
   (starsScore_thresholds 5000).2.2.2.2.2.2.1 (by decide),
   (starsScore_thresholds 10000).2.2.2.2.2.2.2 (by decide)⟩

/-- C8: the popularity score is monotonically non-decreasing in the star
count, and always lands in the set of values 1, 3, 4, 6, 7, 8, 9, 10. -/
theorem starsScore_monotone_and_range :
    (∀ s1 s2 : ℕ, s1 ≤ s2 → calculateStarsScore s1 ≤ calculateStarsScore s2)
    ∧ (∀ s : ℕ, calculateStarsScore s = 1 ∨ calculateStarsScore s = 3 ∨
        calculateStarsScore s = 4 ∨ calculateStarsScore s = 6 ∨
        calculateStarsScore s = 7 ∨ calculateStarsScore s = 8 ∨
        calculateStarsScore s = 9 ∨ calculateStarsScore s = 10) := by
  constructor
  · intro s1 s2 h
    rw [calculateStarsScore_eq_band, calculateStarsScore_eq_band]
    exact_mod_cast starsBand_monotone s1 s2 h
  · intro s
    rw [calculateStarsScore_eq_band]
    rcases starsBand_cases s with h | h | h | h | h | h | h | h <;> rw [h] <;> norm_num

/-- C8 witness: monotonicity applied at the concrete pair 42 ≤ 4242. -/
theorem starsScore_monotone_witness :
    calculateStarsScore 42 ≤ calculateStarsScore 4242 :=
  starsScore_monotone_and_range.1 42 4242 (by decide)

/-- The open-issues component of the issue-health score as the spec words
it: <10→5, <50→4, <100→3, <500→2, else→1. -/
def openIssuesComponentSpec (openIssues : ℕ) : ℚ :=
  if openIssues < 10 then 5
  else if openIssues < 50 then 4
  else if openIssues < 100 then 3
  else if openIssues < 500 then 2
  else 1

/-- C9: the issue-health score equals
`min(min(goodFirstIssues * 2, 5) + openIssuesComponent, 10)`. -/
theorem issuesScore_formula (openIssues goodFirstIssues : ℕ) :
    calculateIssuesScore openIssues goodFirstIssues =
      min (min ((goodFirstIssues : ℚ) * 2) 5 + openIssuesComponentSpec openIssues) 10 :=
  rfl

/-- The weighted sum `overall` computed inside `calculateOverallScore`,
before rounding. -/
def overallRaw (r : RepoAnalysis) : ℚ :=
  calculateActivityScore r.lastActivity * SCORE_WEIGHTS.ACTIVITY +
  calculateStarsScore r.stars * SCORE_WEIGHTS.STARS +
  calculateIssuesScore r.openIssues r.goodFirstIssues.length * SCORE_WEIGHTS.ISSUES +
  (if r.hasContributing then (10 : ℚ) else 0) * SCORE_WEIGHTS.CONTRIBUTING +
  min ((r.goodFirstIssues.length : ℚ) * 2) 10 * SCORE_WEIGHTS.GOOD_FIRST_ISSUES

lemma calculateOverallScore_eq (r : RepoAnalysis) :
    calculateOverallScore r = (jsRound (overallRaw r * 10) : ℚ) / 10 :=
  rfl

lemma overallRaw_bounds (r : RepoAnalysis) : 0 ≤ overallRaw r ∧ overallRaw r ≤ 10 := by
  have ha := calculateActivityScore_bounds r.lastActivity
  have hs := calculateStarsScore_bounds r.stars
  have hi := calculateIssuesScore_bounds r.openIssues r.goodFirstIssues.length
  have hc : 0 ≤ (if r.hasContributing then (10 : ℚ) else 0) ∧
      (if r.hasContributing then (10 : ℚ) else 0) ≤ 10 := by
    split_ifs <;> norm_num
  have hg : 0 ≤ min ((r.goodFirstIssues.length : ℚ) * 2) 10 ∧
      min ((r.goodFirstIssues.length : ℚ) * 2) 10 ≤ 10 :=
    ⟨le_min (by positivity) (by norm_num), min_le_right _ _⟩
  have hw : SCORE_WEIGHTS.ACTIVITY = 0.3 ∧ SCORE_WEIGHTS.STARS = 0.2 ∧
      SCORE_WEIGHTS.ISSUES = 0.15 ∧ SCORE_WEIGHTS.CONTRIBUTING = 0.15 ∧
      SCORE_WEIGHTS.GOOD_FIRST_ISSUES = 0.2 := ⟨rfl, rfl, rfl, rfl, rfl⟩
  rw [overallRaw, hw.1, hw.2.1, hw.2.2.1, hw.2.2.2.1, hw.2.2.2.2]
  constructor
  · have h1 : (0:ℚ) ≤ calculateStarsScore r.stars := le_trans (by norm_num) hs.1
    nlinarith [ha.1, h1, hi.1, hc.1, hg.1]
  · nlinarith [ha.2, hs.2, hi.2, hc.2, hg.2]

/-- A dummy good-first-issue record (only the length of the issue list
enters the scores). -/
def gfiEx : GoodFirstIssue :=
  ⟨"fix docs typo", "https://example.com/1", 1, "2024-01-01T00:00:00Z", 0⟩

/-- The worked example of the spec: daysAgo = 5, stars = 200,
openIssues = 5, three good first issues, contributing guide present. -/
def exampleRepo : RepoAnalysis :=
  ⟨"octo/demo", "demo repository", 200, none, some 5, true,
   "https://example.com/repo", 5, 0, true, false, none, none,
   [gfiEx, gfiEx, gfiEx], [], none, none, none⟩

/-- C1: the overall score is the weighted sum of the five sub-scores
(activity 0.30, popularity 0.20, issue health 0.15, contributing 0.15,
good-first-issue volume 0.20), rounded via `round(sum * 10) / 10`; on the
spec's worked example it is exactly 8.4. -/
theorem overallScore_weighted_formula :
    (∀ r : RepoAnalysis,
      calculateOverallScore r =
        (jsRound ((calculateActivityScore r.lastActivity * 0.3 +
            calculateStarsScore r.stars * 0.2 +
            calculateIssuesScore r.openIssues r.goodFirstIssues.length * 0.15 +
            (if r.hasContributing then (10 : ℚ) else 0) * 0.15 +
            min ((r.goodFirstIssues.length : ℚ) * 2) 10 * 0.2) * 10) : ℚ) / 10)
    ∧ calculateOverallScore exampleRepo = 8.4 := by
  constructor
  · intro r
    rfl
  · norm_num [calculateOverallScore, calculateActivityScore, calculateStarsScore,
      calculateIssuesScore, SCORE_WEIGHTS, ACTIVITY_THRESHOLDS, jsRound, exampleRepo]

/-- C2: for every input record the overall score lies in [0, 10] and is an
integer multiple of one tenth. -/
theorem overallScore_range_and_precision (r : RepoAnalysis) :
    0 ≤ calculateOverallScore r ∧ calculateOverallScore r ≤ 10 ∧
      ∃ k : ℤ, calculateOverallScore r = (k : ℚ) / 10 := by
  have hb := overallRaw_bounds r
  have h1 : 0 ≤ jsRound (overallRaw r * 10) := jsRound_nonneg _ (by linarith [hb.1])
  have h2 : jsRound (overallRaw r * 10) ≤ 100 := jsRound_le _ 100 (by push_cast; linarith [hb.2])
  rw [calculateOverallScore_eq]
  refine ⟨?_, ?_, ⟨jsRound (overallRaw r * 10), rfl⟩⟩
  · have : (0 : ℚ) ≤ (jsRound (overallRaw r * 10) : ℚ) := by exact_mod_cast h1
    linarith
  · have : ((jsRound (overallRaw r * 10) : ℤ) : ℚ) ≤ 100 := by exact_mod_cast h2
    linarith
/-- C3: for every assembled analysis record, `active` is true exactly when
the days-since-last-commit value is known and strictly below 30; in
particular 29 days gives true and 30 days gives false, whatever the other
inputs are. -/
theorem active_iff_recent_commit :
    (∀ (repo : RawRepo) (lastCommitDays : Option ℤ) (issues : List GoodFirstIssue)
        (hasContributing hasCodeOfConductFile : Bool) (contributorsCount : Option String)
        (advancedStats : Option (PRStats × IssueResponseStats)),
      (analyzeRepo repo lastCommitDays issues hasContributing hasCodeOfConductFile
          contributorsCount advancedStats).active = true ↔
        ∃ d : ℤ, lastCommitDays = some d ∧ d < 30)
    ∧ (∀ (repo : RawRepo) (issues : List GoodFirstIssue)
        (hasContributing hasCodeOfConductFile : Bool) (contributorsCount : Option String)
        (advancedStats : Option (PRStats × IssueResponseStats)),
      (analyzeRepo repo (some 29) issues hasContributing hasCodeOfConductFile
          contributorsCount advancedStats).active = true
      ∧ (analyzeRepo repo (some 30) issues hasContributing hasCodeOfConductFile
          contributorsCount advancedStats).active = false) := by
  have hactive : ∀ (repo : RawRepo) (lastCommitDays : Option ℤ)
      (issues : List GoodFirstIssue) (hc hcoc : Bool) (cc : Option String)
      (adv : Option (PRStats × IssueResponseStats)),
      (analyzeRepo repo lastCommitDays issues hc hcoc cc adv).active =
        isActive lastCommitDays := fun _ _ _ _ _ _ _ => rfl
  constructor
  · intro repo lastCommitDays issues hc hcoc cc adv
    rw [hactive]
    cases lastCommitDays with
    | none => simp [isActive]
    | some d => simp [isActive]
  · intro repo issues hc hcoc cc adv
    rw [hactive, hactive]
    constructor <;> simp [isActive]

/-- The PR list of the spec's worked example: two merged PRs with merge
durations of 2 and 4 days (timestamps in epoch milliseconds). -/
def prListEx : List ClosedPR :=
  [⟨0, some 172800000⟩, ⟨0, some 345600000⟩]

/-- C4: the PR aggregator returns null/0 exactly when no PR of the sample
is merged; otherwise the merged count and the one-decimal-rounded mean of
the fractional-day merge durations.  The empty sample gives null/0 and the
2-day/4-day example gives an average of 3.0 over 2 merged PRs. -/
theorem prStats_spec :
    (∀ closedPRs : List ClosedPR,
      ((getPRStats closedPRs).avgMergeTime = none ∧
          (getPRStats closedPRs).mergedCount = 0 ↔
        ∀ pr ∈ closedPRs, pr.merged_at = none)
      ∧ (getPRStats closedPRs).mergedCount = (mergedPRsOf closedPRs).length
      ∧ ((mergedPRsOf closedPRs).length ≠ 0 →
          (getPRStats closedPRs).avgMergeTime =
            some ((jsRound (avgOf ((mergedPRsOf closedPRs).map prMergeDays) * 10) : ℚ) / 10)))
    ∧ getPRStats [] = ⟨none, 0⟩
    ∧ getPRStats prListEx = ⟨some 3, 2⟩ := by
  refine ⟨?_, rfl, ?_⟩
  · intro closedPRs
    have hmerged : ((mergedPRsOf closedPRs).length = 0) ↔ ∀ pr ∈ closedPRs, pr.merged_at = none := by
      rw [List.length_eq_zero, mergedPRsOf, List.filter_eq_nil_iff]
      constructor
      · intro h pr hpr
        exact Option.not_isSome_iff_eq_none.mp (by simpa using h pr hpr)
      · intro h pr hpr
        simp [h pr hpr]
    by_cases h : (mergedPRsOf closedPRs).length = 0
    · have e : getPRStats closedPRs = ⟨none, 0⟩ := by
        simp [getPRStats, h]
      rw [e]
      refine ⟨?_, by simpa using h.symm, fun hne => absurd h hne⟩
      simpa using hmerged.mp h
    · have e : getPRStats closedPRs =
          ⟨some ((jsRound (avgOf ((mergedPRsOf closedPRs).map prMergeDays) * 10) : ℚ) / 10),
            (mergedPRsOf closedPRs).length⟩ := by
        simp [getPRStats, h]
      rw [e]
      refine ⟨?_, rfl, fun _ => rfl⟩
      constructor
      · rintro ⟨habs, -⟩
        exact absurd habs (by simp)
      · intro hall
        exact absurd (hmerged.mpr hall) h
  · norm_num [getPRStats, prListEx, mergedPRsOf, prMergeDays, avgOf, jsRound,
      List.filter, PRStats.mk.injEq]

/-- C4 witness: the general theorem applied to the concrete two-PR sample,
discharging the non-empty-merged-sublist hypothesis. -/
theorem prStats_spec_witness :
    (getPRStats prListEx).avgMergeTime =
      some ((jsRound (avgOf ((mergedPRsOf prListEx).map prMergeDays) * 10) : ℚ) / 10) :=
  (prStats_spec.1 prListEx).2.2 (by decide)

/-- The issue sample of the spec's worked example: four examined issues,
two of which got a first comment, after 1 hour and after 3 hours. -/
def issueListEx : List RecentIssue :=
  [⟨0, 1, some 3600000⟩, ⟨0, 2, some 10800000⟩, ⟨0, 0, none⟩, ⟨0, 0, none⟩]

/-- C5: the issue response aggregator returns null/0 exactly when no
examined issue yielded a response time; otherwise the one-decimal-rounded
mean of the first-response hours over the responding issues, and a
response rate of `round(responses / totalExamined * 100)`, always within
[0, 100].  The 4-issue example with 1h and 3h responses gives an average
of 2.0 and a rate of 50. -/
theorem issueResponse_spec :
    (∀ recentIssues : List RecentIssue,
      ((getIssueResponseStats recentIssues).avgResponseTime = none ∧
          (getIssueResponseStats recentIssues).responseRate = 0 ↔
        collectResponseTimes recentIssues = [])
      ∧ ((collectResponseTimes recentIssues).length ≠ 0 →
          (getIssueResponseStats recentIssues).avgResponseTime =
            some ((jsRound (avgOf (collectResponseTimes recentIssues) * 10) : ℚ) / 10)
          ∧ (getIssueResponseStats recentIssues).responseRate =
            jsRound (((collectResponseTimes recentIssues).length : ℚ) /
              (recentIssues.length : ℚ) * 100))
      ∧ 0 ≤ (getIssueResponseStats recentIssues).responseRate
      ∧ (getIssueResponseStats recentIssues).responseRate ≤ 100)
    ∧ getIssueResponseStats issueListEx = ⟨some 2, 50⟩ := by
  constructor
  · intro recentIssues
    by_cases h : (collectResponseTimes recentIssues).length = 0
    · have e : getIssueResponseStats recentIssues = ⟨none, 0⟩ := by
        simp [getIssueResponseStats, h]
      rw [e]
      exact ⟨by simpa using List.length_eq_zero.mp h, fun hne => absurd h hne,
        le_refl 0, by norm_num⟩
    · have e : getIssueResponseStats recentIssues =
          ⟨some ((jsRound (avgOf (collectResponseTimes recentIssues) * 10) : ℚ) / 10),
            jsRound (((collectResponseTimes recentIssues).length : ℚ) /
              (recentIssues.length : ℚ) * 100)⟩ := by
        simp [getIssueResponseStats, h]
      have hle : (collectResponseTimes recentIssues).length ≤ recentIssues.length :=
        List.length_filterMap_le _ _
      have hpos : 0 < recentIssues.length := by omega
      have hratio0 : 0 ≤ ((collectResponseTimes recentIssues).length : ℚ) /
          (recentIssues.length : ℚ) * 100 := by positivity
      have hratio1 : ((collectResponseTimes recentIssues).length : ℚ) /
          (recentIssues.length : ℚ) * 100 ≤ 100 := by
        have hq : ((collectResponseTimes recentIssues).length : ℚ) /
            (recentIssues.length : ℚ) ≤ 1 := by
          rw [div_le_one (by exact_mod_cast hpos)]
          exact_mod_cast hle
        nlinarith
      rw [e]
      refine ⟨?_, fun _ => ⟨rfl, rfl⟩, jsRound_nonneg _ hratio0,
        jsRound_le _ 100 (by push_cast; linarith)⟩
      constructor
      · rintro ⟨habs, -⟩
        exact absurd habs (by simp)
      · intro habs
        exact absurd (by rw [habs]; rfl) h
  · norm_num [getIssueResponseStats, issueListEx, collectResponseTimes, avgOf, jsRound,
      List.filterMap, IssueResponseStats.mk.injEq]

/-- C5 witness: the general theorem applied to the concrete four-issue
sample, discharging the some-response hypothesis. -/
theorem issueResponse_spec_witness :
    (getIssueResponseStats issueListEx).avgResponseTime =
      some ((jsRound (avgOf (collectResponseTimes issueListEx) * 10) : ℚ) / 10)
    ∧ (getIssueResponseStats issueListEx).responseRate =
      jsRound (((collectResponseTimes issueListEx).length : ℚ) /
        (issueListEx.length : ℚ) * 100) :=
  (issueResponse_spec.1 issueListEx).2.1 (by decide)

/-- A record agreeing with `exampleRepo` on the five score-relevant fields
but differing on every other field, advanced stats included. -/
def exampleRepoVariant : RepoAnalysis :=
  ⟨"other/name", "different text", 200, some "Go", some 5, false,
   "https://example.org/elsewhere", 5, 7, true, true, some "MIT", some "10+",
   [⟨"another", "u2", 9, "2023-05-05", 4⟩, gfiEx, gfiEx], ["cli", "tools"],
   some 1, some ⟨some 3, 2⟩, some ⟨some 2, 50⟩⟩

/-- C10: the overall score depends only on activity days, stars, open
issues, good-first-issue count and the contributing flag — two records
agreeing there score identically (so the latency analytics never influence
the score) — and scoring is deterministic on a fixed record. -/
theorem overallScore_determined_by_five_fields :
    (∀ r1 r2 : RepoAnalysis,
      r1.lastActivity = r2.lastActivity → r1.stars = r2.stars →
      r1.openIssues = r2.openIssues →
      r1.goodFirstIssues.length = r2.goodFirstIssues.length →
      r1.hasContributing = r2.hasContributing →
      calculateOverallScore r1 = calculateOverallScore r2)
    ∧ (∀ r : RepoAnalysis, calculateOverallScore r = calculateOverallScore r) := by
  refine ⟨?_, fun r => rfl⟩
  intro r1 r2 h1 h2 h3 h4 h5
  simp only [calculateOverallScore, h1, h2, h3, h4, h5]

/-- C10 witness: two concrete records that differ in name, language,
forks, license, contributors, topics and the two latency sub-records but
agree on the five scoring inputs receive the same overall score. -/
theorem overallScore_determined_witness :
    calculateOverallScore exampleRepo = calculateOverallScore exampleRepoVariant :=
  overallScore_determined_by_five_fields.1 exampleRepo exampleRepoVariant
    rfl rfl rfl rfl rfl
end Gitpick
